import Mathlib

/-!
Verification of the AIDO-LF experiment manager
(`src/experiment_manager/experiment_manager.py`).

The development shallowly embeds the experiment manager's core:
* the episode step driver `run_episode` as a trace-producing loop
  (peers are modelled as oracles: the simulator's `get_sim_state`
  replies are a function of the iteration index);
* the orchestrator `main` episode loop (retry policy, log lifecycle,
  channel cleanup) as a trace-producing loop whose per-attempt
  outcomes come from an oracle;
* the compatibility check `check_compatibility_between_agent_and_sim`;
* the scenario enumerator `get_episodes`;
* the final metric aggregation (numpy mean/median/min/max over the
  per-episode statistics).

Simulated time (Python floats) is modelled by `ℚ`.
-/

namespace ExperimentManager

/-- Robot configuration inside a `Scenario` (`robot_conf` in the source):
only the `playable` flag is relevant to the control flow; the
configuration payload is opaque to the manager. -/
structure RobotConf where
  playable : Bool
deriving DecidableEq, Repr

/-- A scenario: name plus the robot mapping. Python dicts iterate in
insertion order, so `robots` is an association list in that order. -/
structure Scenario where
  scenario_name : String
  robots : List (String × RobotConf)
deriving DecidableEq, Repr

/-- The `EpisodeSpec` dataclass from the source: episode name plus the scenario. -/
structure EpisodeSpec where
  episode_name : String
  scenario : Scenario
deriving DecidableEq, Repr

/-- Translation of `playable_robots = [_ for _ in scenario.robots if scenario.robots[_].playable]`. -/
def playableRobots (sc : Scenario) : List String :=
  (sc.robots.filter (fun p => p.2.playable)).map (fun p => p.1)

/-- Translation of `not_playable_robots = [_ for _ in scenario.robots if not scenario.robots[_].playable]`. -/
def notPlayableRobots (sc : Scenario) : List String :=
  (sc.robots.filter (fun p => !p.2.playable)).map (fun p => p.1)

/-- Peers addressed by the step driver: the simulator channel, or the
agent channel assigned (by `playable_robots2agent`) to a playable robot. -/
inductive Peer
  | sim
  | agent (robot : String)
deriving DecidableEq, Repr

/-- One message written on a peer channel by `run_episode`, as observed
on the wire: the topic, the robot it concerns (when any) and the
effective time it carries (when any).  `timing` stands for the raw
`timing_information` record written by `log_timing_info` (it carries
the `steps` counter used to build the `TimeTracker`). -/
inductive Ev
  | writeZero (p : Peer) (topic : String) (robot : Option String) (t : Option ℚ)
  | writeExpect (p : Peer) (topic : String) (robot : Option String) (t : Option ℚ)
  | timing (stepIdx : Nat)
deriving DecidableEq, Repr

/-- Appending one written message to the trace accumulated so far. -/
def emit (w : List Ev) (e : Ev) : List Ev := w ++ [e]

/-- The body of `for robot_name in playable_robots:` in `run_episode`:
state query, performance query, observation query, agent exchange
(`observations` then `get_commands` on the agent channel picked for
this robot), command push — each call appending to the trace. -/
def processPlayableRobot (t : ℚ) (w : List Ev) (r : String) : List Ev :=
  let w := emit w (.writeExpect .sim "get_robot_state" (some r) (some t))
  let w := emit w (.writeExpect .sim "get_robot_performance" (some r) none)
  let w := emit w (.writeExpect .sim "get_robot_observations" (some r) (some t))
  let w := emit w (.writeZero (.agent r) "observations" none none)
  let w := emit w (.writeExpect (.agent r) "get_commands" none none)
  emit w (.writeZero .sim "set_robot_commands" (some r) (some t))

/-- The body of `for robot_name in not_playable_robots:`: the state
query only. -/
def processNotPlayableRobot (t : ℚ) (w : List Ev) (r : String) : List Ev :=
  emit w (.writeExpect .sim "get_robot_state" (some r) (some t))

/-- The per-robot phase of one iteration of the step loop: the two
`for` loops of `run_episode`, playable robots first. -/
def stepRobots (sc : Scenario) (t : ℚ) (w : List Ev) : List Ev :=
  let w := (playableRobots sc).foldl (processPlayableRobot t) w
  (notPlayableRobots sc).foldl (processNotPlayableRobot t) w

/-- The five-message block the spec promises for one playable robot
(the agent exchange being two messages on the agent channel). -/
def playBlock (t : ℚ) (r : String) : List Ev :=
  [ .writeExpect .sim "get_robot_state" (some r) (some t),
    .writeExpect .sim "get_robot_performance" (some r) none,
    .writeExpect .sim "get_robot_observations" (some r) (some t),
    .writeZero (.agent r) "observations" none none,
    .writeExpect (.agent r) "get_commands" none none,
    .writeZero .sim "set_robot_commands" (some r) (some t) ]

/-- The single state-query block for a non-playable robot. -/
def stateBlock (t : ℚ) (r : String) : List Ev :=
  [ .writeExpect .sim "get_robot_state" (some r) (some t) ]

/-- Result of the step loop: the value of `current_sim_time` at exit,
the trace of messages written during the loop, and whether the loop
actually exited (`false` means the fuel ran out, which has no
counterpart in the source's unbounded `while True`). -/
structure LoopResult where
  elapsed : ℚ
  trace : List Ev
  finished : Bool
deriving DecidableEq, Repr

/-- The `while True:` loop of `run_episode`.  `done k` is the
simulator's `sim_state.done` reply to the `get_sim_state` query of the
`k`-th iteration.  `stepsVar` models the source's `steps` variable
(initialised to 0 and never incremented).  On `done` the loop breaks
before the `step` message and before `log_timing_info`. -/
def runLoop (sc : Scenario) (done : Nat → Bool) (len dt : ℚ) :
    Nat → Nat → Nat → ℚ → LoopResult
  | 0, _, _, t => ⟨t, [], false⟩
  | fuel + 1, k, stepsVar, t =>
    if len ≤ t then ⟨t, [], true⟩
    else
      let w := stepRobots sc t []
      let w := emit w (.writeExpect .sim "get_sim_state" none none)
      if done k then ⟨t, w, true⟩
      else
        let t' := t + dt
        let w := emit w (.writeZero .sim "step" none (some t'))
        let w := emit w (.timing stepsVar)
        let r := runLoop sc done len dt fuel (k + 1) stepsVar t'
        ⟨r.elapsed, w ++ r.trace, r.finished⟩

/-- The initialisation sequence of `run_episode`: clear, set_map, spawn
each robot in scenario order, episode_start to the simulator, then
episode_start to every agent. -/
def initTrace (sc : Scenario) : List Ev :=
  [ .writeZero .sim "clear" none none,
    .writeZero .sim "set_map" none none ]
  ++ sc.robots.map (fun p => .writeZero .sim "spawn_robot" (some p.1) none)
  ++ [ .writeZero .sim "episode_start" none none ]
  ++ (playableRobots sc).map (fun r => .writeZero (.agent r) "episode_start" none none)

/-- Translation of `run_episode`: initialisation followed by the step loop, starting
from `current_sim_time = 0`, `steps = 0`.  Returns `current_sim_time`. -/
def run_episode (sc : Scenario) (done : Nat → Bool)
    (episode_length_s physics_dt : ℚ) (fuel : Nat) : LoopResult :=
  let r := runLoop sc done episode_length_s physics_dt fuel 0 0 0
  ⟨r.elapsed, initTrace sc ++ r.trace, r.finished⟩

/-- Is this event the physics-advance (`step`) message? -/
def isStepMsg : Ev → Bool
  | .writeZero .sim topic _ _ => topic == "step"
  | _ => false

/-- Is this event the `get_sim_state` query? -/
def isSimStateQuery : Ev → Bool
  | .writeExpect .sim topic _ _ => topic == "get_sim_state"
  | _ => false

/-- Is this event a timing-information record? -/
def isTiming : Ev → Bool
  | .timing _ => true
  | _ => false

/-- A small concrete scenario used by the witnesses: one playable robot
`ego` and one non-playable robot `npc`. -/
def demoScenario : Scenario :=
  ⟨"loop", [("ego", ⟨true⟩), ("npc", ⟨false⟩)]⟩

/-! ## The orchestrator (`main`)

`main` opens the three peer channels, checks compatibility, enumerates
episodes, and runs the retry loop.  The external collaborators are
oracles: each attempt (indexed by the source's `attempt_i` counter)
either completes with some elapsed time or raises, and `read_and_draw`
yields the per-attempt statistics. -/

/-- Number of playable robots in a scenario (`num_playable` in `main`). -/
def numPlayable (sc : Scenario) : Nat :=
  (sc.robots.filter (fun p => p.2.playable)).length

/-- Translation of `get_episodes`: each scenario received from the scenario maker is
expanded into `episodes_per_scenario` episode specs named
`scenario_name-i`.  (The channel interaction is abstracted to the list
of scenarios received before the `finished` reply; the enumerator
closes the scenario-maker channel at that point, which `main` records
in its action trace.) -/
def get_episodes (scenarios : List Scenario) (episodes_per_scenario : Nat) :
    List EpisodeSpec :=
  scenarios.flatMap fun sc =>
    (List.range episodes_per_scenario).map fun i =>
      ⟨sc.scenario_name ++ "-" ++ toString i, sc⟩

/-- Result of `can_be_used_as2` (external library `zuper_typing`):
the manager reads its `result` field for the observations check but
tests the bare object (`if not r:`) for the commands check, so the
model carries both the declared boolean `result` and the Python
truthiness `truthy` of the returned object. -/
structure CanBeUsed where
  result : Bool
  truthy : Bool
deriving DecidableEq, Repr

/-- Translation of `check_compatibility_between_agent_and_sim`.  `agentProtocol` is
`none` when the agent does not implement reflection (the check is then
skipped and the simulator's types are force-adopted).  `rObs` is the
result of `can_be_used_as2(type_observations_sim, type_observations_agent)`
and `rCmd` of `can_be_used_as2(type_commands_agent, type_commands_sim)`. -/
def check_compatibility (agentProtocol : Option Unit) (rObs rCmd : CanBeUsed) :
    Except String Unit :=
  match agentProtocol with
  | none => .ok ()
  | some _ =>
      if !rObs.result then .error "Observations mismatch"
      else if !rCmd.truthy then .error "Commands mismatch"
      else .ok ()

/-- Outcome of one call to `run_episode` as seen by `main`'s episode
loop: it returns `length_s`, raises `dc.InvalidSubmission` (agent
exchange failure), or raises some other exception. -/
inductive AttemptOutcome
  | completes (length_s : ℚ)
  | raisesSubmission
  | raisesOther
deriving DecidableEq, Repr

/-- The raw exception leaving the episode loop, before `main`'s
`except` clauses classify it. -/
inductive RawErr
  | tooMany (n : Nat)
  | robotMismatch
  | submission
  | anomalous
deriving DecidableEq, Repr

/-- The error `main` propagates to its caller.  `configError` is the
plain exception of the compatibility check, raised before the
`try/except/finally` block; `keyError` is the `KeyError` of the final
aggregation loop, raised after it. -/
inductive MainErr
  | configError (msg : String)
  | invalidSubmission
  | invalidEvaluator (cause : RawErr)
  | keyError (path : String)
deriving DecidableEq, Repr

/-- The clauses `except dc.InvalidSubmission: raise` / `except BaseException: raise
dc.InvalidEvaluator(msg) from e`. -/
def classify : RawErr → MainErr
  | .submission => .invalidSubmission
  | e => .invalidEvaluator e

/-- Externally observable actions of `main`: file-system operations on
the per-attempt log, the attempt itself, channel closes and score
reports. -/
inductive Act
  | openLog (path : String)
  | runAttempt (episode : String) (attempt : Nat)
  | closeLog (path : String)
  | renameFile (src dst : String)
  | renameDir (src dst : String)
  | closeChannel (peer : String)
  | setScore (key : String) (value : ℚ)
deriving DecidableEq, Repr

/-- Per-episode statistics: metric path (slash-joined) to scalar. -/
abbrev Stats := List (String × ℚ)

/-- State of `main`'s episode loop: the pending queue, `nfailures`,
`attempt_i`, the `per_episode` mapping (insertion order preserved,
assignment to an existing episode name overwrites in place) and the
`stats` variable (the statistics of the last attempt evaluated). -/
structure LoopState where
  episodes : List EpisodeSpec
  nfailures : Nat
  attempt_i : Nat
  per_episode : List (String × Stats)
  stats : Stats
deriving DecidableEq, Repr

/-- Assignment `per_episode[episode_name] = stats` on a Python dict: overwrite in
place when present, append otherwise. -/
def dictSet (m : List (String × Stats)) (k : String) (v : Stats) :
    List (String × Stats) :=
  match m with
  | [] => [(k, v)]
  | (k', v') :: rest =>
      if k' = k then (k, v) :: rest else (k', v') :: dictSet rest k v

/-- Outcome of one iteration of `while episodes:`. -/
inductive IterOut
  | next (st : LoopState) (acts : List Act)
  | raised (e : RawErr) (acts : List Act)
deriving DecidableEq, Repr

/-- Configuration fields of `MyConfig` that the episode loop reads.
`max_failures` is an `Int` (a Python int may be negative). -/
structure MainCfg where
  episode_length_s : ℚ
  min_episode_length_s : ℚ
  physics_dt : ℚ
  episodes_per_scenario : Nat
  max_failures : Int
deriving DecidableEq, Repr

/-- One iteration of `main`'s episode loop on a non-empty queue
`spec :: rest`.  Mirrors the source order: failure-counter check;
attempt directory and log names; `open(fn_tmp)`; the robot-count
check (which raises with the log open and **not** renamed); the
attempt itself, whose `finally` closes the log and renames it to its
final name in every case; then evaluation and the accept/reject
decision. -/
def loopIter (cfg : MainCfg) (ao : Nat → AttemptOutcome) (metrics : Nat → Stats)
    (spec : EpisodeSpec) (rest : List EpisodeSpec)
    (nf ai : Nat) (pe : List (String × Stats)) : IterOut :=
  if cfg.max_failures ≤ (nf : Int) then .raised (.tooMany nf) []
  else
    let dn_final := "episodes/" ++ spec.episode_name
    let dn := "attempts/" ++ spec.episode_name ++ ".attempt" ++ toString ai
    let fn := dn ++ "/log.gs2.cbor"
    let fn_tmp := fn ++ ".tmp"
    let acts := [Act.openLog fn_tmp]
    if numPlayable spec.scenario ≠ 1 then .raised .robotMismatch acts
    else
      let acts := acts ++ [Act.runAttempt spec.episode_name ai,
                           Act.closeLog fn_tmp, Act.renameFile fn_tmp fn]
      match ao ai with
      | .raisesSubmission => .raised .submission acts
      | .raisesOther => .raised .anomalous acts
      | .completes length_s =>
          let stats := metrics ai
          let pe := dictSet pe spec.episode_name stats
          if cfg.min_episode_length_s ≤ length_s then
            .next ⟨rest, nf, ai + 1, pe, stats⟩
              (acts ++ [Act.renameDir dn dn_final])
          else
            .next ⟨spec :: rest, nf + 1, ai + 1, pe, stats⟩ acts

/-- Outcome of the whole `while episodes:` loop. -/
inductive LoopOutcome
  | ok (st : LoopState)
  | err (e : RawErr) (st : LoopState)
  | outOfFuel (st : LoopState)
deriving DecidableEq, Repr

/-- The `while episodes:` loop. -/
def mainLoop (cfg : MainCfg) (ao : Nat → AttemptOutcome) (metrics : Nat → Stats) :
    Nat → LoopState → LoopOutcome × List Act
  | 0, st => (.outOfFuel st, [])
  | fuel + 1, st =>
      match st.episodes with
      | [] => (.ok st, [])
      | spec :: rest =>
          match loopIter cfg ao metrics spec rest st.nfailures st.attempt_i
              st.per_episode with
          | .raised e acts => (.err e st, acts)
          | .next st' acts =>
              let r := mainLoop cfg ao metrics fuel st'
              (r.1, acts ++ r.2)

/-- Translation of `float(np.mean(values))`. -/
def npMean (xs : List ℚ) : ℚ := xs.sum / (xs.length : ℚ)

/-- Insertion of a value into an ascending list (helper for the
sorting that `np.median` performs). -/
def insertSorted (x : ℚ) : List ℚ → List ℚ
  | [] => [x]
  | y :: t => if x ≤ y then x :: y :: t else y :: insertSorted x t

/-- Ascending sort by insertion. -/
def sortAsc (xs : List ℚ) : List ℚ := xs.foldr insertSorted []

/-- Translation of `float(np.median(values))`: middle of the sorted list, or the mean
of the two middle elements for an even length. -/
def npMedian (xs : List ℚ) : ℚ :=
  let s := sortAsc xs
  let n := s.length
  if n % 2 = 1 then s.getD (n / 2) 0
  else (s.getD (n / 2 - 1) 0 + s.getD (n / 2) 0) / 2

/-- Translation of `float(np.min(values))`. -/
def npMin (xs : List ℚ) : ℚ :=
  match xs with
  | [] => 0
  | x :: t => t.foldl min x

/-- Translation of `float(np.max(values))`. -/
def npMax (xs : List ℚ) : ℚ :=
  match xs with
  | [] => 0
  | x :: t => t.foldl max x

/-- The comprehension `values = [_[k] for _ in per_episode.values()]`: the value of
metric path `k` in every episode, a `KeyError` if one lacks it. -/
def valuesFor (k : String) : List (String × Stats) → Except String (List ℚ)
  | [] => .ok []
  | (_, st) :: rest =>
      match st.lookup k with
      | none => .error k
      | some v => (valuesFor k rest).map (fun vs => v :: vs)

/-- The aggregation loop `for k in list(stats): ...`: for each metric
path of the **last** episode's statistics, report mean, median, min
and max across the per-episode values, as four separately named
scalars. -/
def aggregate (pe : List (String × Stats)) : List String → Except String Stats
  | [] => .ok []
  | k :: ks =>
      match valuesFor k pe with
      | .error m => .error m
      | .ok vs =>
          (aggregate pe ks).map (fun restScores =>
            (k ++ "_mean", npMean vs) :: (k ++ "_median", npMedian vs) ::
            (k ++ "_min", npMin vs) :: (k ++ "_max", npMax vs) :: restScores)

/-- Translation of `main`: open channels, protocol handshakes, compatibility check
(raised **outside** the `try/finally`, so nothing is closed on that
path), seeds, episode enumeration (the enumerator closes the
scenario-maker channel), the episode loop, the `finally` that closes
the agent and simulator channels, classification of errors, and the
final score aggregation. -/
def main (cfg : MainCfg) (agentProtocol : Option Unit) (rObs rCmd : CanBeUsed)
    (scenarios : List Scenario) (ao : Nat → AttemptOutcome)
    (metrics : Nat → Stats) (fuel : Nat) : Except MainErr Unit × List Act :=
  match check_compatibility agentProtocol rObs rCmd with
  | .error m => (.error (.configError m), [])
  | .ok _ =>
      let episodes := get_episodes scenarios cfg.episodes_per_scenario
      let r := mainLoop cfg ao metrics fuel ⟨episodes, 0, 0, [], []⟩
      let acts := Act.closeChannel "scenario_maker" :: r.2
        ++ [Act.closeChannel "agent", Act.closeChannel "simulator"]
      match r.1 with
      | .outOfFuel _ => (.error (.invalidEvaluator .anomalous), acts)
      | .err e _ => (.error (classify e), acts)
      | .ok st =>
          match aggregate st.per_episode (st.stats.map (fun p => p.1)) with
          | .error m => (.error (.keyError m), acts)
          | .ok scores =>
              (.ok (), acts ++ scores.map (fun p => Act.setScore p.1 p.2))

/-- Is this action the run of an episode attempt? -/
def isRunAttempt : Act → Bool
  | .runAttempt _ _ => true
  | _ => false

/-- Is this action the opening of a log file? -/
def isOpenLog : Act → Bool
  | .openLog _ => true
  | _ => false

/-- Is this action a report of the named score? -/
def isScoreFor (k : String) : Act → Bool
  | .setScore k' _ => k' == k
  | _ => false

/-- The actions performed during one loop iteration, whichever way it
ended. -/
def iterActs : IterOut → List Act
  | .next _ acts => acts
  | .raised _ acts => acts

/-- The successor state of one loop iteration, `none` if it raised. -/
def iterNext : IterOut → Option LoopState
  | .next st _ => some st
  | .raised _ _ => none

/-- A concrete configuration for the witnesses: episodes of 20 s, a
10 s minimum, 0.5 s physics step, one episode per scenario, at most 5
failures. -/
def demoCfg : MainCfg := ⟨20, 10, 1/2, 1, 5⟩

/-- A concrete episode spec over `demoScenario`. -/
def demoSpec : EpisodeSpec := ⟨"loop-0", demoScenario⟩

/-- Scenario for the aggregation counterexample: a single playable
robot. -/
def aggScenario : Scenario := ⟨"s", [("ego", ⟨true⟩)]⟩

/-- Configuration for the aggregation counterexample: two episodes per
scenario, every attempt long enough. -/
def aggCfg : MainCfg := ⟨20, 1, 1/2, 2, 5⟩

/-- Metrics oracle for the aggregation counterexample: the first
episode records metric paths `a` and `c`, the second only `a`. -/
def aggMetrics : Nat → Stats :=
  fun i => if i = 0 then [("a", 1), ("c", 5)] else [("a", 2)]

lemma processPlayableRobot_eq (t : ℚ) (w : List Ev) (r : String) :
    processPlayableRobot t w r = w ++ playBlock t r := by
  simp [processPlayableRobot, emit, playBlock]

lemma processNotPlayableRobot_eq (t : ℚ) (w : List Ev) (r : String) :
    processNotPlayableRobot t w r = w ++ stateBlock t r := by
  simp [processNotPlayableRobot, emit, stateBlock]

lemma foldl_playable_eq (t : ℚ) (rs : List String) (w : List Ev) :
    rs.foldl (processPlayableRobot t) w = w ++ rs.flatMap (playBlock t) := by
  induction rs generalizing w with
  | nil => simp
  | cons r rs ih =>
      simp [List.foldl_cons, processPlayableRobot_eq, ih, List.flatMap_cons,
        List.append_assoc]

lemma foldl_notPlayable_eq (t : ℚ) (rs : List String) (w : List Ev) :
    rs.foldl (processNotPlayableRobot t) w = w ++ rs.flatMap (stateBlock t) := by
  induction rs generalizing w with
  | nil => simp
  | cons r rs ih =>
      simp [List.foldl_cons, processNotPlayableRobot_eq, ih, List.flatMap_cons,
        List.append_assoc]

/-- The robot phase of one iteration, as a concatenation of per-robot
blocks: playable robots first, each contributing its full block, then
the non-playable state queries. -/
lemma stepRobots_eq (sc : Scenario) (t : ℚ) (w : List Ev) :
    stepRobots sc t w =
      w ++ (playableRobots sc).flatMap (playBlock t)
        ++ (notPlayableRobots sc).flatMap (stateBlock t) := by
  simp [stepRobots, foldl_playable_eq, foldl_notPlayable_eq, List.append_assoc]

lemma countP_flatMap_zero {α β : Type} (p : β → Bool) (f : α → List β)
    (l : List α) (h : ∀ a, (f a).countP p = 0) :
    (l.flatMap f).countP p = 0 := by
  induction l with
  | nil => simp
  | cons a l ih => simp [List.flatMap_cons, List.countP_append, h, ih]

lemma countP_playBlock_isStepMsg (t : ℚ) (r : String) :
    (playBlock t r).countP isStepMsg = 0 := by
  simp [playBlock, List.countP_cons, isStepMsg]

lemma countP_playBlock_isSimStateQuery (t : ℚ) (r : String) :
    (playBlock t r).countP isSimStateQuery = 0 := by
  simp [playBlock, List.countP_cons, isSimStateQuery]

lemma countP_playBlock_isTiming (t : ℚ) (r : String) :
    (playBlock t r).countP isTiming = 0 := by
  simp [playBlock, List.countP_cons, isTiming]

lemma countP_stateBlock_isStepMsg (t : ℚ) (r : String) :
    (stateBlock t r).countP isStepMsg = 0 := by
  simp [stateBlock, List.countP_cons, isStepMsg]

lemma countP_stateBlock_isSimStateQuery (t : ℚ) (r : String) :
    (stateBlock t r).countP isSimStateQuery = 0 := by
  simp [stateBlock, List.countP_cons, isSimStateQuery]

lemma countP_stateBlock_isTiming (t : ℚ) (r : String) :
    (stateBlock t r).countP isTiming = 0 := by
  simp [stateBlock, List.countP_cons, isTiming]

lemma countP_stepRobots_isStepMsg (sc : Scenario) (t : ℚ) :
    (stepRobots sc t []).countP isStepMsg = 0 := by
  rw [stepRobots_eq]
  simp [List.countP_append,
    countP_flatMap_zero _ _ _ (countP_playBlock_isStepMsg t),
    countP_flatMap_zero _ _ _ (countP_stateBlock_isStepMsg t)]

lemma countP_stepRobots_isSimStateQuery (sc : Scenario) (t : ℚ) :
    (stepRobots sc t []).countP isSimStateQuery = 0 := by
  rw [stepRobots_eq]
  simp [List.countP_append,
    countP_flatMap_zero _ _ _ (countP_playBlock_isSimStateQuery t),
    countP_flatMap_zero _ _ _ (countP_stateBlock_isSimStateQuery t)]

lemma countP_stepRobots_isTiming (sc : Scenario) (t : ℚ) :
    (stepRobots sc t []).countP isTiming = 0 := by
  rw [stepRobots_eq]
  simp [List.countP_append,
    countP_flatMap_zero _ _ _ (countP_playBlock_isTiming t),
    countP_flatMap_zero _ _ _ (countP_stateBlock_isTiming t)]

lemma countP_initTrace_isStepMsg (sc : Scenario) :
    (initTrace sc).countP isStepMsg = 0 := by
  simp [initTrace, List.countP_append, List.countP_cons, List.countP_map,
    List.countP_eq_zero, Function.comp, isStepMsg]

lemma countP_initTrace_isSimStateQuery (sc : Scenario) :
    (initTrace sc).countP isSimStateQuery = 0 := by
  simp [initTrace, List.countP_append, List.countP_cons, List.countP_map,
    List.countP_eq_zero, Function.comp, isSimStateQuery]

lemma countP_initTrace_isTiming (sc : Scenario) :
    (initTrace sc).countP isTiming = 0 := by
  simp [initTrace, List.countP_append, List.countP_cons, List.countP_map,
    List.countP_eq_zero, Function.comp, isTiming]

/-- Characterisation of the step loop when it stops at iteration `K`:
`N` is the first iteration index at which the time bound is reached,
and `K ≤ N` is the stopping index (`K < N` means the simulator said
done at iteration `K`; `K = N` means the time bound fired first).
Starting from iteration `j` at time `dt * j`, the loop finishes with
`current_sim_time = dt * K`, sends exactly `K - j` physics-advance
messages, and issues a `get_sim_state` query for every iteration it
enters (`K - j` full ones plus the final partial one when stopped by
the simulator). -/
lemma runLoop_characterization (sc : Scenario) (done : Nat → Bool) (len dt : ℚ)
    (K N : Nat) (hKN : K ≤ N)
    (hN : len ≤ dt * N) (hNmin : ∀ m : Nat, m < N → dt * m < len)
    (hdoneK : K < N → done K = true)
    (hKmin : ∀ j : Nat, j < K → done j = false) :
    ∀ d fuel j s : Nat, j + d = K → d < fuel →
      (runLoop sc done len dt fuel j s (dt * j)).finished = true ∧
      (runLoop sc done len dt fuel j s (dt * j)).elapsed = dt * K ∧
      (runLoop sc done len dt fuel j s (dt * j)).trace.countP isStepMsg = d ∧
      (runLoop sc done len dt fuel j s (dt * j)).trace.countP isSimStateQuery
        = (if K < N then d + 1 else d) := by
  intro d
  induction d with
  | zero =>
      intro fuel j s hjd hfuel
      obtain ⟨f, rfl⟩ : ∃ f, fuel = f + 1 := ⟨fuel - 1, by omega⟩
      have hjK : j = K := by omega
      subst hjK
      by_cases hjN : j < N
      · have hlt : dt * j < len := hNmin j hjN
        have hdone : done j = true := hdoneK hjN
        simp [runLoop, not_le.mpr hlt, hdone, emit, List.countP_append,
          countP_stepRobots_isStepMsg, countP_stepRobots_isSimStateQuery,
          List.countP_cons, isStepMsg, isSimStateQuery, hjN]
      · have hKeq : j = N := by omega
        have hle : len ≤ dt * (j : ℚ) := by
          have hc : (j : ℚ) = (N : ℚ) := by exact_mod_cast hKeq
          rw [hc]; exact hN
        simp [runLoop, hle, hjN]
  | succ d ih =>
      intro fuel j s hjd hfuel
      obtain ⟨f, rfl⟩ : ∃ f, fuel = f + 1 := ⟨fuel - 1, by omega⟩
      have hjN : j < N := by omega
      have hlt : dt * j < len := hNmin j hjN
      have hdone : done j = false := hKmin j (by omega)
      have harith : dt * j + dt = dt * ((j + 1 : ℕ) : ℚ) := by push_cast; ring
      obtain ⟨ih1, ih2, ih3, ih4⟩ := ih f (j + 1) s (by omega) (by omega)
      rw [← harith] at ih1 ih2 ih3 ih4
      refine ⟨?_, ?_, ?_, ?_⟩
      · simp [runLoop, not_le.mpr hlt, hdone, emit, ih1]
      · simp [runLoop, not_le.mpr hlt, hdone, emit, ih2]
      · simp [runLoop, not_le.mpr hlt, hdone, emit, List.countP_append,
          countP_stepRobots_isStepMsg, List.countP_cons, isStepMsg,
          isSimStateQuery, isTiming, ih3]
      · simp [runLoop, not_le.mpr hlt, hdone, emit, List.countP_append,
          countP_stepRobots_isSimStateQuery, List.countP_cons, isStepMsg,
          isSimStateQuery, isTiming, ih4]
        split <;> omega

/-- In any run of the step loop, timing records and physics-advance
messages come in matched pairs: an iteration ended by the simulator's
`done` reply emits neither, a completed iteration emits both. -/
lemma runLoop_timing_eq_stepMsg (sc : Scenario) (done : Nat → Bool) (len dt : ℚ) :
    ∀ fuel k s : Nat, ∀ t : ℚ,
      (runLoop sc done len dt fuel k s t).trace.countP isTiming =
      (runLoop sc done len dt fuel k s t).trace.countP isStepMsg := by
  intro fuel
  induction fuel with
  | zero => intro k s t; simp [runLoop]
  | succ f ih =>
      intro k s t
      by_cases h1 : len ≤ t
      · simp [runLoop, h1]
      · by_cases h2 : done k
        · simp [runLoop, h1, h2, emit, List.countP_append,
            countP_stepRobots_isTiming, countP_stepRobots_isStepMsg,
            List.countP_cons, isTiming, isStepMsg, isSimStateQuery]
        · simp [runLoop, h1, h2, emit, List.countP_append,
            countP_stepRobots_isTiming, countP_stepRobots_isStepMsg,
            List.countP_cons, isTiming, isStepMsg, isSimStateQuery, ih]

/-! ## Claim theorems -/

/-- **C1.** In every iteration of the step loop of `run_episode` (an
iteration is entered whenever the elapsed time is still below the
episode length), the driver issues, for every playable robot in the
fixed iteration order of the scenario's robot mapping, the state
query, the performance query, the observation query, the agent
exchange (`observations` then `get_commands`) and the command push, in
that exact order, completing the block of one robot before starting
the next; all state queries for non-playable robots come after every
playable robot's block (and before the global `get_sim_state` query
that ends the per-robot phase). -/
theorem claim_c1_step_order (sc : Scenario) (done : Nat → Bool)
    (len dt t : ℚ) (fuel k s : Nat) (ht : t < len) :
    ∃ rest, (runLoop sc done len dt (fuel + 1) k s t).trace =
      (playableRobots sc).flatMap (playBlock t)
      ++ ((notPlayableRobots sc).flatMap (stateBlock t)
      ++ Ev.writeExpect .sim "get_sim_state" none none :: rest) := by
  by_cases h2 : done k
  · refine ⟨[], ?_⟩
    simp [runLoop, not_le.mpr ht, h2, emit, stepRobots_eq]
  · refine ⟨Ev.writeZero .sim "step" none (some (t + dt)) :: Ev.timing s ::
      (runLoop sc done len dt fuel (k + 1) s (t + dt)).trace, ?_⟩
    simp [runLoop, not_le.mpr ht, h2, emit, stepRobots_eq, List.append_assoc]

/-- Witness for C1: the first iteration of a concrete run over
`demoScenario`. -/
theorem claim_c1_step_order_witness :
    (0 : ℚ) < 1 ∧
    ∃ rest, (runLoop demoScenario (fun _ => false) 1 (1/2) 4 0 0 0).trace =
      (playableRobots demoScenario).flatMap (playBlock 0)
      ++ ((notPlayableRobots demoScenario).flatMap (stateBlock 0)
      ++ Ev.writeExpect .sim "get_sim_state" none none :: rest) :=
  ⟨by norm_num,
   claim_c1_step_order demoScenario (fun _ => false) 1 (1/2) 0 3 0 0 (by norm_num)⟩

/-- **C2.** The step loop stops at the first of (a) the simulator
reporting done, (b) elapsed time reaching the episode length:
with `N` the first iteration at which the time bound is reached and
`K ≤ N` the stop index (`K < N`: first done reply; `K = N`: no done
reply before the bound), the loop finishes with exactly `K` physics
advances — in particular no `step` message in the done iteration
itself, which is entered (its `get_sim_state` query is the `K+1`-st)
but not completed — and `run_episode` returns the elapsed simulated
time `dt * K` reached at that point. -/
theorem claim_c2_termination (sc : Scenario) (done : Nat → Bool) (len dt : ℚ)
    (K N fuel : Nat) (hKN : K ≤ N)
    (hN : len ≤ dt * N) (hNmin : ∀ m : Nat, m < N → dt * m < len)
    (hdoneK : K < N → done K = true)
    (hKmin : ∀ j : Nat, j < K → done j = false)
    (hfuel : K < fuel) :
    (run_episode sc done len dt fuel).finished = true ∧
    (run_episode sc done len dt fuel).elapsed = dt * K ∧
    (run_episode sc done len dt fuel).trace.countP isStepMsg = K ∧
    (run_episode sc done len dt fuel).trace.countP isSimStateQuery =
      (if K < N then K + 1 else K) := by
  obtain ⟨h1, h2, h3, h4⟩ := runLoop_characterization sc done len dt K N hKN hN
    hNmin hdoneK hKmin K fuel 0 0 (by omega) hfuel
  rw [show dt * ((0 : ℕ) : ℚ) = 0 by norm_num] at h1 h2 h3 h4
  refine ⟨?_, ?_, ?_, ?_⟩ <;>
    simp [run_episode, List.countP_append, countP_initTrace_isStepMsg,
      countP_initTrace_isSimStateQuery, h1, h2, h3, h4]

/-- Witness for C2: a run over `demoScenario` with `dt = 1`, episode
length 2 (`N = 2`), where the simulator reports done at iteration 1
(`K = 1`). -/
theorem claim_c2_termination_witness :
    ((1 : ℕ) ≤ 2 ∧ (2 : ℚ) ≤ 1 * ((2 : ℕ) : ℚ) ∧
      (∀ m : Nat, m < 2 → (1 : ℚ) * m < 2) ∧
      ((1 : ℕ) < 2 → (fun k => k == 1) 1 = true) ∧
      (∀ j : Nat, j < 1 → (fun k => k == 1) j = false) ∧ (1 : ℕ) < 3) ∧
    ((run_episode demoScenario (fun k => k == 1) 2 1 3).finished = true ∧
     (run_episode demoScenario (fun k => k == 1) 2 1 3).elapsed = 1 * (1 : ℕ) ∧
     (run_episode demoScenario (fun k => k == 1) 2 1 3).trace.countP isStepMsg = 1 ∧
     (run_episode demoScenario (fun k => k == 1) 2 1 3).trace.countP isSimStateQuery =
       (if (1 : ℕ) < 2 then 1 + 1 else 1)) :=
  ⟨⟨by norm_num, by norm_num,
    by intro m hm; interval_cases m <;> norm_num,
    by decide, by decide, by norm_num⟩,
   claim_c2_termination demoScenario (fun k => k == 1) 2 1 1 2 3
     (by norm_num) (by norm_num)
     (by intro m hm; interval_cases m <;> norm_num)
     (by decide) (by decide) (by norm_num)⟩

/-- **C7 (counterexample).** The claim "after every iteration of the
step loop the per-step timing record is emitted, regardless of how the
iteration ends" fails: in a run where the simulator reports done at
the very first iteration, one iteration runs (one `get_sim_state`
query) but no timing record is written, because the `break` on
`sim_state.done` skips `log_timing_info`. -/
theorem claim_c7_counterexample :
    (run_episode demoScenario (fun _ => true) 1 1 3).trace.countP isSimStateQuery = 1 ∧
    (run_episode demoScenario (fun _ => true) 1 1 3).trace.countP isTiming = 0 := by
  decide

/-- **C7 (amended).** A per-step timing record is emitted exactly for
the iterations that complete the physics advance: every run carries as
many timing records as `step` messages; an iteration ended by the
simulator's done reply emits neither. -/
theorem claim_c7_timing_after_steps (sc : Scenario) (done : Nat → Bool)
    (len dt : ℚ) (fuel : Nat) :
    (run_episode sc done len dt fuel).trace.countP isTiming =
    (run_episode sc done len dt fuel).trace.countP isStepMsg := by
  simp [run_episode, List.countP_append, countP_initTrace_isTiming,
    countP_initTrace_isStepMsg, runLoop_timing_eq_stepMsg]

/-! ## Lemmas about the orchestrator loop -/

/-- When every attempt completes but is too short, the loop keeps the
spec at the head, increments `nfailures` each iteration and raises
`tooMany M` the moment the counter reaches the maximum `M`: starting
with `nf` failures and `d = M - nf` still to come, exactly `d` further
attempts run. -/
lemma mainLoop_all_rejected (cfg : MainCfg) (ao : Nat → AttemptOutcome)
    (metrics : Nat → Stats) (M : Nat) (hM : cfg.max_failures = (M : Int))
    (hao : ∀ i, ∃ l, ao i = .completes l ∧ l < cfg.min_episode_length_s)
    (spec : EpisodeSpec) (rest : List EpisodeSpec)
    (hplay : numPlayable spec.scenario = 1) :
    ∀ d fuel nf ai : Nat, ∀ pe : List (String × Stats), ∀ s0 : Stats,
      nf + d = M → d < fuel →
      (∃ stE, (mainLoop cfg ao metrics fuel ⟨spec :: rest, nf, ai, pe, s0⟩).1 =
        .err (.tooMany M) stE) ∧
      (mainLoop cfg ao metrics fuel
        ⟨spec :: rest, nf, ai, pe, s0⟩).2.countP isRunAttempt = d := by
  intro d
  induction d with
  | zero =>
      intro fuel nf ai pe s0 hnfd hfuel
      obtain ⟨f, rfl⟩ : ∃ f, fuel = f + 1 := ⟨fuel - 1, by omega⟩
      have hnf : nf = M := by omega
      have hcond : cfg.max_failures ≤ ((M : ℕ) : Int) := le_of_eq hM
      have hcond' : cfg.max_failures ≤ (nf : Int) := by rw [hM]; omega
      constructor
      · exact ⟨⟨spec :: rest, nf, ai, pe, s0⟩,
          by simp [mainLoop, loopIter, hcond, hcond', hnf]⟩
      · simp [mainLoop, loopIter, hcond, hcond']
  | succ d ih =>
      intro fuel nf ai pe s0 hnfd hfuel
      obtain ⟨f, rfl⟩ : ∃ f, fuel = f + 1 := ⟨fuel - 1, by omega⟩
      have hcond : ¬ cfg.max_failures ≤ (nf : Int) := by rw [hM]; omega
      obtain ⟨l, haol, hl⟩ := hao ai
      obtain ⟨⟨stE, hrec1⟩, hrec2⟩ := ih f (nf + 1) (ai + 1)
        (dictSet pe spec.episode_name (metrics ai)) (metrics ai)
        (by omega) (by omega)
      constructor
      · exact ⟨stE, by simp [mainLoop, loopIter, hcond, hplay, haol,
          not_le.mpr hl, hrec1]⟩
      · simp [mainLoop, loopIter, hcond, hplay, haol, not_le.mpr hl,
          List.countP_append, List.countP_cons, isRunAttempt, hrec2]

/-! ## Claim theorems about the orchestrator -/

/-- **C3.** If every attempt completes but is rejected for being too
short, the run fails with the exhausted-retries error (wrapped, as the
source does, into the evaluator-level error) exactly when the failure
counter equals `max_failures = M`: the loop runs exactly `M` attempts
— none is stopped while the counter is below `M` — and starts no
further attempt once the counter has reached `M`. -/
theorem claim_c3_retry_bound (cfg : MainCfg) (agentProtocol : Option Unit)
    (rObs rCmd : CanBeUsed) (scenarios : List Scenario)
    (ao : Nat → AttemptOutcome) (metrics : Nat → Stats) (M fuel : Nat)
    (spec : EpisodeSpec) (rest : List EpisodeSpec)
    (hcompat : check_compatibility agentProtocol rObs rCmd = .ok ())
    (hM : cfg.max_failures = (M : Int))
    (hao : ∀ i, ∃ l, ao i = .completes l ∧ l < cfg.min_episode_length_s)
    (heps : get_episodes scenarios cfg.episodes_per_scenario = spec :: rest)
    (hplay : numPlayable spec.scenario = 1)
    (hfuel : M < fuel) :
    (main cfg agentProtocol rObs rCmd scenarios ao metrics fuel).1 =
      .error (.invalidEvaluator (.tooMany M)) ∧
    (main cfg agentProtocol rObs rCmd scenarios ao metrics
      fuel).2.countP isRunAttempt = M := by
  obtain ⟨⟨stE, h1⟩, h2⟩ := mainLoop_all_rejected cfg ao metrics M hM hao spec
    rest hplay M fuel 0 0 [] [] (by omega) hfuel
  constructor
  · simp [main, hcompat, heps, h1, classify]
  · simp [main, hcompat, heps, h1, h2, List.countP_append, List.countP_cons,
      isRunAttempt]

/-- Witness for C3: one scenario, one episode per scenario, a 10 s
minimum, every attempt completing at 5 s, `max_failures = 2`: the run
fails with `tooMany 2` after exactly 2 attempts. -/
theorem claim_c3_retry_bound_witness :
    (check_compatibility none ⟨true, true⟩ ⟨true, true⟩ = .ok () ∧
     (⟨20, 10, 1/2, 1, 2⟩ : MainCfg).max_failures = ((2 : ℕ) : Int) ∧
     (∀ i : Nat, ∃ l, (fun _ : Nat => AttemptOutcome.completes 5) i =
        .completes l ∧ l < (⟨20, 10, 1/2, 1, 2⟩ : MainCfg).min_episode_length_s) ∧
     get_episodes [aggScenario] (⟨20, 10, 1/2, 1, 2⟩ : MainCfg).episodes_per_scenario =
       ⟨"s-0", aggScenario⟩ :: [] ∧
     numPlayable (⟨"s-0", aggScenario⟩ : EpisodeSpec).scenario = 1 ∧ (2 : ℕ) < 3) ∧
    ((main ⟨20, 10, 1/2, 1, 2⟩ none ⟨true, true⟩ ⟨true, true⟩ [aggScenario]
        (fun _ => .completes 5) (fun _ => []) 3).1 =
      .error (.invalidEvaluator (.tooMany 2)) ∧
     (main ⟨20, 10, 1/2, 1, 2⟩ none ⟨true, true⟩ ⟨true, true⟩ [aggScenario]
        (fun _ => .completes 5) (fun _ => []) 3).2.countP isRunAttempt = 2) :=
  ⟨⟨rfl, rfl, fun i => ⟨5, rfl, by norm_num⟩, by decide, by decide, by norm_num⟩,
   claim_c3_retry_bound ⟨20, 10, 1/2, 1, 2⟩ none ⟨true, true⟩ ⟨true, true⟩
     [aggScenario] (fun _ => .completes 5) (fun _ => []) 2 3
     ⟨"s-0", aggScenario⟩ [] rfl rfl (fun i => ⟨5, rfl, by norm_num⟩)
     (by decide) (by decide) (by norm_num)⟩

/-- **C10.** If `max_failures` is zero or negative and the pending
episode list is non-empty, `main` raises the too-many-failures error
(here with counter value 0, wrapped as the source wraps it) before any
episode attempt is started: the counter check at the top of the loop
fires on the very first iteration. -/
theorem claim_c10_zero_max (cfg : MainCfg) (agentProtocol : Option Unit)
    (rObs rCmd : CanBeUsed) (scenarios : List Scenario)
    (ao : Nat → AttemptOutcome) (metrics : Nat → Stats) (fuel : Nat)
    (spec : EpisodeSpec) (rest : List EpisodeSpec)
    (hcompat : check_compatibility agentProtocol rObs rCmd = .ok ())
    (hmax : cfg.max_failures ≤ 0)
    (heps : get_episodes scenarios cfg.episodes_per_scenario = spec :: rest)
    (hfuel : 0 < fuel) :
    (main cfg agentProtocol rObs rCmd scenarios ao metrics fuel).1 =
      .error (.invalidEvaluator (.tooMany 0)) ∧
    (main cfg agentProtocol rObs rCmd scenarios ao metrics
      fuel).2.countP isRunAttempt = 0 := by
  obtain ⟨f, rfl⟩ : ∃ f, fuel = f + 1 := ⟨fuel - 1, by omega⟩
  have hcond : cfg.max_failures ≤ ((0 : ℕ) : Int) := by
    simpa using hmax
  have hcond' : cfg.max_failures ≤ (0 : Int) := hmax
  constructor <;>
    simp [main, hcompat, heps, mainLoop, loopIter, hcond, hcond', classify,
      List.countP_append, List.countP_cons, isRunAttempt]

/-- Witness for C10: `max_failures = 0`, one pending episode: the run
fails immediately with zero attempts run. -/
theorem claim_c10_zero_max_witness :
    (check_compatibility none ⟨true, true⟩ ⟨true, true⟩ = .ok () ∧
     (⟨20, 10, 1/2, 1, 0⟩ : MainCfg).max_failures ≤ 0 ∧
     get_episodes [aggScenario] (⟨20, 10, 1/2, 1, 0⟩ : MainCfg).episodes_per_scenario =
       ⟨"s-0", aggScenario⟩ :: [] ∧ 0 < 1) ∧
    ((main ⟨20, 10, 1/2, 1, 0⟩ none ⟨true, true⟩ ⟨true, true⟩ [aggScenario]
        (fun _ => .completes 20) (fun _ => []) 1).1 =
      .error (.invalidEvaluator (.tooMany 0)) ∧
     (main ⟨20, 10, 1/2, 1, 0⟩ none ⟨true, true⟩ ⟨true, true⟩ [aggScenario]
        (fun _ => .completes 20) (fun _ => []) 1).2.countP isRunAttempt = 0) :=
  ⟨⟨rfl, by norm_num, by decide, by norm_num⟩,
   claim_c10_zero_max ⟨20, 10, 1/2, 1, 0⟩ none ⟨true, true⟩ ⟨true, true⟩
     [aggScenario] (fun _ => .completes 20) (fun _ => []) 1
     ⟨"s-0", aggScenario⟩ [] rfl (by norm_num) (by decide) (by norm_num)⟩

/-- **C5.** In an iteration whose attempt completes: if the elapsed
time is below the minimum, the spec stays at the head of the queue,
the failure counter is incremented by one and the next attempt index
is the fresh `ai + 1`; the spec is removed from the queue only when
the attempt succeeds (elapsed time at least the minimum), in which
case the counter is unchanged and the attempt index still advances. -/
theorem claim_c5_queue_retry (cfg : MainCfg) (ao : Nat → AttemptOutcome)
    (metrics : Nat → Stats) (spec : EpisodeSpec) (rest : List EpisodeSpec)
    (nf ai : Nat) (pe : List (String × Stats)) (l : ℚ)
    (hnf : (nf : Int) < cfg.max_failures)
    (hplay : numPlayable spec.scenario = 1)
    (hao : ao ai = .completes l) :
    (l < cfg.min_episode_length_s →
      iterNext (loopIter cfg ao metrics spec rest nf ai pe) =
        some ⟨spec :: rest, nf + 1, ai + 1,
          dictSet pe spec.episode_name (metrics ai), metrics ai⟩) ∧
    (cfg.min_episode_length_s ≤ l →
      iterNext (loopIter cfg ao metrics spec rest nf ai pe) =
        some ⟨rest, nf, ai + 1,
          dictSet pe spec.episode_name (metrics ai), metrics ai⟩) := by
  have hcond : ¬ cfg.max_failures ≤ (nf : Int) := not_le.mpr hnf
  constructor
  · intro hl
    simp [loopIter, iterNext, hcond, hplay, hao, not_le.mpr hl]
  · intro hl
    simp [loopIter, iterNext, hcond, hplay, hao, hl]

/-- Witness for C5: a rejected attempt (5 s &lt; 10 s minimum) keeps
`demoSpec` at the head and bumps the counter and attempt index. -/
theorem claim_c5_queue_retry_witness :
    (((0 : ℕ) : Int) < demoCfg.max_failures ∧
     numPlayable demoSpec.scenario = 1 ∧
     (fun _ : Nat => AttemptOutcome.completes 5) 0 = .completes 5) ∧
    ((5 : ℚ) < demoCfg.min_episode_length_s →
      iterNext (loopIter demoCfg (fun _ => .completes 5) (fun _ => [])
          demoSpec [] 0 0 []) =
        some ⟨demoSpec :: [], 0 + 1, 0 + 1,
          dictSet [] demoSpec.episode_name ((fun _ : Nat => ([] : Stats)) 0),
          (fun _ : Nat => ([] : Stats)) 0⟩) ∧
    (demoCfg.min_episode_length_s ≤ (5 : ℚ) →
      iterNext (loopIter demoCfg (fun _ => .completes 5) (fun _ => [])
          demoSpec [] 0 0 []) =
        some ⟨[], 0, 0 + 1,
          dictSet [] demoSpec.episode_name ((fun _ : Nat => ([] : Stats)) 0),
          (fun _ : Nat => ([] : Stats)) 0⟩) :=
  ⟨⟨by decide, by decide, rfl⟩,
   (claim_c5_queue_retry demoCfg (fun _ => .completes 5) (fun _ => [])
     demoSpec [] 0 0 [] 5 (by decide) (by decide) rfl).1,
   (claim_c5_queue_retry demoCfg (fun _ => .completes 5) (fun _ => [])
     demoSpec [] 0 0 [] 5 (by decide) (by decide) rfl).2⟩

/-- **C8 (counterexample).** The claim that the per-episode log is
renamed to its final name "only as an atomic completion step", so that
a partial log from a raising attempt is never left under the final
name, fails: the rename sits in a `finally` block, so when the step
driver raises, the partially written log is still renamed from
`log.gs2.cbor.tmp` to the final `log.gs2.cbor`. -/
theorem claim_c8_counterexample :
    loopIter demoCfg (fun _ => .raisesOther) (fun _ => []) demoSpec [] 0 0 [] =
      .raised .anomalous
        [Act.openLog "attempts/loop-0.attempt0/log.gs2.cbor.tmp",
         Act.runAttempt "loop-0" 0,
         Act.closeLog "attempts/loop-0.attempt0/log.gs2.cbor.tmp",
         Act.renameFile "attempts/loop-0.attempt0/log.gs2.cbor.tmp"
           "attempts/loop-0.attempt0/log.gs2.cbor"] := by
  decide

/-- **C8 (amended).** The per-episode log is opened under the
temporary name `log.gs2.cbor.tmp` and renamed to its final name
`log.gs2.cbor` in the cleanup (`finally`) block after closing it; this
happens on every attempt that passes the robot-count check —
successful, rejected, or raising alike — so the rename is
unconditional rather than a completion-only step. -/
theorem claim_c8_log_lifecycle (cfg : MainCfg) (ao : Nat → AttemptOutcome)
    (metrics : Nat → Stats) (spec : EpisodeSpec) (rest : List EpisodeSpec)
    (nf ai : Nat) (pe : List (String × Stats))
    (hnf : (nf : Int) < cfg.max_failures)
    (hplay : numPlayable spec.scenario = 1) :
    ∃ tail, iterActs (loopIter cfg ao metrics spec rest nf ai pe) =
      Act.openLog ("attempts/" ++ spec.episode_name ++ ".attempt" ++
          toString ai ++ "/log.gs2.cbor" ++ ".tmp") ::
      Act.runAttempt spec.episode_name ai ::
      Act.closeLog ("attempts/" ++ spec.episode_name ++ ".attempt" ++
          toString ai ++ "/log.gs2.cbor" ++ ".tmp") ::
      Act.renameFile
        ("attempts/" ++ spec.episode_name ++ ".attempt" ++ toString ai ++
          "/log.gs2.cbor" ++ ".tmp")
        ("attempts/" ++ spec.episode_name ++ ".attempt" ++ toString ai ++
          "/log.gs2.cbor") :: tail := by
  have hcond : ¬ cfg.max_failures ≤ (nf : Int) := not_le.mpr hnf
  cases hao : ao ai with
  | completes l =>
      by_cases hl : cfg.min_episode_length_s ≤ l
      · exact ⟨[Act.renameDir
            ("attempts/" ++ spec.episode_name ++ ".attempt" ++ toString ai)
            ("episodes/" ++ spec.episode_name)],
          by simp [loopIter, iterActs, hcond, hplay, hao, hl]⟩
      · exact ⟨[], by simp [loopIter, iterActs, hcond, hplay, hao, hl]⟩
  | raisesSubmission =>
      exact ⟨[], by simp [loopIter, iterActs, hcond, hplay, hao]⟩
  | raisesOther =>
      exact ⟨[], by simp [loopIter, iterActs, hcond, hplay, hao]⟩

/-- Witness for the amended C8, at a raising attempt. -/
theorem claim_c8_log_lifecycle_witness :
    (((0 : ℕ) : Int) < demoCfg.max_failures ∧
     numPlayable demoSpec.scenario = 1) ∧
    ∃ tail, iterActs (loopIter demoCfg (fun _ => .raisesOther) (fun _ => [])
        demoSpec [] 0 0 []) =
      Act.openLog ("attempts/" ++ demoSpec.episode_name ++ ".attempt" ++
          toString 0 ++ "/log.gs2.cbor" ++ ".tmp") ::
      Act.runAttempt demoSpec.episode_name 0 ::
      Act.closeLog ("attempts/" ++ demoSpec.episode_name ++ ".attempt" ++
          toString 0 ++ "/log.gs2.cbor" ++ ".tmp") ::
      Act.renameFile
        ("attempts/" ++ demoSpec.episode_name ++ ".attempt" ++ toString 0 ++
          "/log.gs2.cbor" ++ ".tmp")
        ("attempts/" ++ demoSpec.episode_name ++ ".attempt" ++ toString 0 ++
          "/log.gs2.cbor") :: tail :=
  ⟨⟨by decide, by decide⟩,
   claim_c8_log_lifecycle demoCfg (fun _ => .raisesOther) (fun _ => [])
     demoSpec [] 0 0 [] (by decide) (by decide)⟩

/-- **C9 (counterexample).** The claim that every fatal failure class
unwinds through a cleanup block closing agent, simulator and scenario
source fails for the configuration error of the compatibility check:
it is raised before the `try/finally`, so the run aborts with no
channel-close action at all. -/
theorem claim_c9_counterexample :
    main demoCfg (some ()) ⟨false, false⟩ ⟨true, true⟩ [demoScenario]
      (fun _ => .completes 20) (fun _ => []) 3 =
      (.error (.configError "Observations mismatch"), []) := rfl

/-- **C9 (amended).** Once the run gets past the compatibility check,
every exit of `main` — normal or through any fatal error raised in the
episode loop (exhausted retries, submission error, robot-count
mismatch, anomalous error) — performs the cleanup closes of the agent
and simulator channels, and the scenario-maker channel close done
earlier by the episode enumerator is also on record; only the
compatibility configuration error, raised before the guarded block,
escapes with no channel closed. -/
theorem claim_c9_channel_cleanup (cfg : MainCfg) (agentProtocol : Option Unit)
    (rObs rCmd : CanBeUsed) (scenarios : List Scenario)
    (ao : Nat → AttemptOutcome) (metrics : Nat → Stats) (fuel : Nat)
    (hcompat : check_compatibility agentProtocol rObs rCmd = .ok ()) :
    Act.closeChannel "agent" ∈
      (main cfg agentProtocol rObs rCmd scenarios ao metrics fuel).2 ∧
    Act.closeChannel "simulator" ∈
      (main cfg agentProtocol rObs rCmd scenarios ao metrics fuel).2 ∧
    Act.closeChannel "scenario_maker" ∈
      (main cfg agentProtocol rObs rCmd scenarios ao metrics fuel).2 := by
  cases hr : (mainLoop cfg ao metrics fuel
      ⟨get_episodes scenarios cfg.episodes_per_scenario, 0, 0, [], []⟩).1 with
  | ok st =>
      cases ha : aggregate st.per_episode (st.stats.map (fun p => p.1)) with
      | error m =>
          refine ⟨?_, ?_, ?_⟩ <;> simp [main, hcompat, hr, ha, List.mem_append]
      | ok scores =>
          refine ⟨?_, ?_, ?_⟩ <;> simp [main, hcompat, hr, ha, List.mem_append]
  | err e st =>
      refine ⟨?_, ?_, ?_⟩ <;> simp [main, hcompat, hr, List.mem_append]
  | outOfFuel st =>
      refine ⟨?_, ?_, ?_⟩ <;> simp [main, hcompat, hr, List.mem_append]

/-- Witness for the amended C9, on a run that fails with exhausted
retries. -/
theorem claim_c9_channel_cleanup_witness :
    check_compatibility none ⟨true, true⟩ ⟨true, true⟩ = .ok () ∧
    (Act.closeChannel "agent" ∈
      (main ⟨20, 10, 1/2, 1, 0⟩ none ⟨true, true⟩ ⟨true, true⟩ [aggScenario]
        (fun _ => .completes 20) (fun _ => []) 1).2 ∧
     Act.closeChannel "simulator" ∈
      (main ⟨20, 10, 1/2, 1, 0⟩ none ⟨true, true⟩ ⟨true, true⟩ [aggScenario]
        (fun _ => .completes 20) (fun _ => []) 1).2 ∧
     Act.closeChannel "scenario_maker" ∈
      (main ⟨20, 10, 1/2, 1, 0⟩ none ⟨true, true⟩ ⟨true, true⟩ [aggScenario]
        (fun _ => .completes 20) (fun _ => []) 1).2) :=
  ⟨rfl,
   claim_c9_channel_cleanup ⟨20, 10, 1/2, 1, 0⟩ none ⟨true, true⟩ ⟨true, true⟩
     [aggScenario] (fun _ => .completes 20) (fun _ => []) 1 rfl⟩

/-- **C4.** If the declared types are not assignable — the simulator's
observations are not usable as the agent's observations input, or the
agent's commands are not usable as the simulator's commands input
(assuming the external checker's object truthiness agrees with its
`result` field, which is how the source reads the commands check) —
then the run aborts with the fatal configuration error before any
episode runs and before any log file is created: the action trace is
empty. -/
theorem claim_c4_compat_gate (cfg : MainCfg) (rObs rCmd : CanBeUsed)
    (scenarios : List Scenario) (ao : Nat → AttemptOutcome)
    (metrics : Nat → Stats) (fuel : Nat)
    (htruthy : rCmd.truthy = rCmd.result)
    (hfail : rObs.result = false ∨ rCmd.result = false) :
    (∃ m, (main cfg (some ()) rObs rCmd scenarios ao metrics fuel).1 =
      .error (.configError m)) ∧
    (main cfg (some ()) rObs rCmd scenarios ao metrics fuel).2 = [] ∧
    (main cfg (some ()) rObs rCmd scenarios ao metrics
      fuel).2.countP isRunAttempt = 0 ∧
    (main cfg (some ()) rObs rCmd scenarios ao metrics
      fuel).2.countP isOpenLog = 0 := by
  have hc : ∃ m, check_compatibility (some ()) rObs rCmd = .error m := by
    cases hobs : rObs.result with
    | false => exact ⟨"Observations mismatch", by simp [check_compatibility, hobs]⟩
    | true =>
        have hcmd : rCmd.result = false := by
          rcases hfail with h | h
          · rw [hobs] at h; exact absurd h (by simp)
          · exact h
        exact ⟨"Commands mismatch",
          by simp [check_compatibility, hobs, htruthy, hcmd]⟩
  obtain ⟨m, hm⟩ := hc
  refine ⟨⟨m, ?_⟩, ?_, ?_, ?_⟩ <;> simp [main, hm]

/-- Witness for C4: observations not assignable. -/
theorem claim_c4_compat_gate_witness :
    ((⟨false, false⟩ : CanBeUsed).truthy = (⟨false, false⟩ : CanBeUsed).result ∧
     ((⟨false, false⟩ : CanBeUsed).result = false ∨
      (⟨false, false⟩ : CanBeUsed).result = false)) ∧
    ((∃ m, (main demoCfg (some ()) ⟨false, false⟩ ⟨false, false⟩ [demoScenario]
        (fun _ => .completes 20) (fun _ => []) 3).1 = .error (.configError m)) ∧
     (main demoCfg (some ()) ⟨false, false⟩ ⟨false, false⟩ [demoScenario]
        (fun _ => .completes 20) (fun _ => []) 3).2 = [] ∧
     (main demoCfg (some ()) ⟨false, false⟩ ⟨false, false⟩ [demoScenario]
        (fun _ => .completes 20) (fun _ => []) 3).2.countP isRunAttempt = 0 ∧
     (main demoCfg (some ()) ⟨false, false⟩ ⟨false, false⟩ [demoScenario]
        (fun _ => .completes 20) (fun _ => []) 3).2.countP isOpenLog = 0) :=
  ⟨⟨rfl, Or.inl rfl⟩,
   claim_c4_compat_gate demoCfg ⟨false, false⟩ ⟨false, false⟩ [demoScenario]
     (fun _ => .completes 20) (fun _ => []) 3 rfl (Or.inl rfl)⟩

/-- When every key has a value in every episode, the aggregation loop
succeeds. -/
lemma aggregate_ok (pe : List (String × Stats)) :
    ∀ ks : List String, (∀ k' ∈ ks, ∃ vs, valuesFor k' pe = .ok vs) →
      ∃ scores, aggregate pe ks = .ok scores := by
  intro ks
  induction ks with
  | nil => exact fun _ => ⟨[], rfl⟩
  | cons k0 ks ih =>
      intro h
      obtain ⟨vs0, hvs0⟩ := h k0 (by simp)
      obtain ⟨s, hs⟩ := ih (fun k' hk' => h k' (by simp [hk']))
      exact ⟨(k0 ++ "_mean", npMean vs0) :: (k0 ++ "_median", npMedian vs0) ::
          (k0 ++ "_min", npMin vs0) :: (k0 ++ "_max", npMax vs0) :: s,
        by simp [aggregate, hvs0, hs, Except.map]⟩

/-- **C6 (counterexample).** The claim that mean/median/min/max are
reported "for each metric-path observed in any completed episode"
fails: the aggregation loop iterates over the keys of the **last**
episode's statistics only.  In a run with two accepted episodes where
the first records paths `a` and `c` and the second only `a`, the run
succeeds and reports the four aggregates for `a` but nothing for `c`,
although `c` was observed in a completed episode. -/
theorem claim_c6_counterexample :
    (main aggCfg none ⟨true, true⟩ ⟨true, true⟩ [aggScenario]
        (fun _ => .completes 2) aggMetrics 3).1 = .ok () ∧
    (aggMetrics 0).lookup "c" = some 5 ∧
    (main aggCfg none ⟨true, true⟩ ⟨true, true⟩ [aggScenario]
        (fun _ => .completes 2) aggMetrics 3).2.countP (isScoreFor "a_mean") = 1 ∧
    (main aggCfg none ⟨true, true⟩ ⟨true, true⟩ [aggScenario]
        (fun _ => .completes 2) aggMetrics 3).2.countP (isScoreFor "c_mean") = 0 ∧
    (main aggCfg none ⟨true, true⟩ ⟨true, true⟩ [aggScenario]
        (fun _ => .completes 2) aggMetrics 3).2.countP (isScoreFor "c_median") = 0 ∧
    (main aggCfg none ⟨true, true⟩ ⟨true, true⟩ [aggScenario]
        (fun _ => .completes 2) aggMetrics 3).2.countP (isScoreFor "c_min") = 0 ∧
    (main aggCfg none ⟨true, true⟩ ⟨true, true⟩ [aggScenario]
        (fun _ => .completes 2) aggMetrics 3).2.countP (isScoreFor "c_max") = 0 :=
  ⟨rfl, rfl, by decide, by decide, by decide, by decide, by decide⟩

/-- **C6 (amended).** For each metric-path `k` among the keys of the
**last** completed episode's statistics, and provided every completed
episode recorded a value for every such key (otherwise the aggregation
loop raises a `KeyError`), the orchestrator reports the mean, median,
minimum and maximum of `k`'s values across all completed episodes,
each as a separately named scalar `k_mean`, `k_median`, `k_min`,
`k_max`. -/
theorem claim_c6_aggregation (pe : List (String × Stats)) :
    ∀ (ks : List String) (k : String), k ∈ ks →
      (∀ k' ∈ ks, ∃ vs, valuesFor k' pe = Except.ok vs) →
      ∃ scores vs, aggregate pe ks = .ok scores ∧
        valuesFor k pe = .ok vs ∧
        (k ++ "_mean", npMean vs) ∈ scores ∧
        (k ++ "_median", npMedian vs) ∈ scores ∧
        (k ++ "_min", npMin vs) ∈ scores ∧
        (k ++ "_max", npMax vs) ∈ scores := by
  intro ks
  induction ks with
  | nil => intro k hk; simp at hk
  | cons k0 ks ih =>
      intro k hk hvals
      obtain ⟨vs0, hvs0⟩ := hvals k0 (by simp)
      have hrest : ∀ k' ∈ ks, ∃ vs, valuesFor k' pe = .ok vs :=
        fun k' h => hvals k' (by simp [h])
      rcases List.mem_cons.mp hk with rfl | hk'
      · obtain ⟨s, hs⟩ := aggregate_ok pe ks hrest
        exact ⟨(k ++ "_mean", npMean vs0) :: (k ++ "_median", npMedian vs0) ::
            (k ++ "_min", npMin vs0) :: (k ++ "_max", npMax vs0) :: s, vs0,
          by simp [aggregate, hvs0, hs, Except.map], hvs0,
          by simp, by simp, by simp, by simp⟩
      · obtain ⟨scores, vs, hagg, hv, h1, h2, h3, h4⟩ := ih k hk' hrest
        exact ⟨(k0 ++ "_mean", npMean vs0) :: (k0 ++ "_median", npMedian vs0) ::
            (k0 ++ "_min", npMin vs0) :: (k0 ++ "_max", npMax vs0) :: scores,
          vs, by simp [aggregate, hvs0, hagg, Except.map], hv,
          by simp [h1], by simp [h2], by simp [h3], by simp [h4]⟩

/-- Witness for the amended C6, on the spec's own example: two
completed episodes report metric path `p` with values 1/5 and 2/5; the
aggregates evaluate to mean 3/10, median 3/10, min 1/5, max 2/5. -/
theorem claim_c6_aggregation_witness :
    ("p" ∈ ["p"] ∧
     (∀ k' ∈ ["p"], ∃ vs, valuesFor k'
        [("e1", [("p", 1/5)]), ("e2", [("p", 2/5)])] = Except.ok vs)) ∧
    (∃ scores vs,
      aggregate [("e1", [("p", 1/5)]), ("e2", [("p", 2/5)])] ["p"] = .ok scores ∧
      valuesFor "p" [("e1", [("p", 1/5)]), ("e2", [("p", 2/5)])] = .ok vs ∧
      ("p" ++ "_mean", npMean vs) ∈ scores ∧
      ("p" ++ "_median", npMedian vs) ∈ scores ∧
      ("p" ++ "_min", npMin vs) ∈ scores ∧
      ("p" ++ "_max", npMax vs) ∈ scores) ∧
    npMean [1/5, 2/5] = 3/10 ∧ npMedian [1/5, 2/5] = 3/10 ∧
    npMin [1/5, 2/5] = 1/5 ∧ npMax [1/5, 2/5] = 2/5 :=
  ⟨⟨by simp, fun k' hk' => by
      simp only [List.mem_singleton] at hk'
      subst hk'
      exact ⟨[1/5, 2/5], rfl⟩⟩,
   claim_c6_aggregation [("e1", [("p", 1/5)]), ("e2", [("p", 2/5)])] ["p"] "p"
     (by simp)
     (fun k' hk' => by
       simp only [List.mem_singleton] at hk'
       subst hk'
       exact ⟨[1/5, 2/5], rfl⟩),
   by norm_num [npMean], by norm_num [npMedian, sortAsc, insertSorted],
   by norm_num [npMin], by norm_num [npMax]⟩

end ExperimentManager
